import Mathlib

set_option maxHeartbeats 1000000

/-!
Verification development for the asset-management frontend data layer.

The definitions below are shallow embeddings of the TypeScript sources:
  frontend/src/utils/errorHandler.ts   (formatError, getUserFriendlyErrorMessage)
  frontend/src/utils/apiClient.ts      (axiosInstance response interceptor)
  services/api.ts                      (api response interceptor)
  services/assetApi.ts                 (AssetApi: operations, handleApiError,
                                        validateAssetData, query building)
  types/api.ts                         (ApiException)
  hooks/useAssets.ts                   (the seven data hooks)
  contexts/ToastContext.tsx            (removeToast)

Dynamically-typed JavaScript values that the code probes at runtime are
modelled by the inductive `JSValue`; truthiness, `typeof`, property access
and string coercion are modelled by the `js*` helpers, following JavaScript
semantics for exactly the operations the sources perform.
-/

namespace AssetMgmt

/-- Model of a JavaScript runtime value, rich enough for every probe the
embedded sources perform (truthiness, `typeof`, `in`, property access,
`Array.isArray`, string coercion).  Numbers are modelled as integers; the
sources never perform fractional arithmetic on probed values. -/
inductive JSValue where
  | undefined
  | null
  | boolean (b : Bool)
  | number (n : Int)
  | string (s : String)
  | array (elems : List JSValue)
  | object (fields : List (String × JSValue))
deriving Repr

/-- JavaScript truthiness of a value. -/
def jsTruthy : JSValue → Bool
  | .undefined => false
  | .null => false
  | .boolean b => b
  | .number n => n != 0
  | .string s => s != ""
  | .array _ => true
  | .object _ => true

/-- Whether the value is a string (JavaScript `typeof v === "string"`). -/
def JSValue.isString : JSValue → Bool
  | .string _ => true
  | _ => false

/-- JavaScript `typeof v === "object"` (true for objects, arrays and null). -/
def jsTypeofObject : JSValue → Bool
  | .null => true
  | .array _ => true
  | .object _ => true
  | _ => false

/-- JavaScript `Array.isArray v`. -/
def jsIsArray : JSValue → Bool
  | .array _ => true
  | _ => false

/-- First binding of a key in an object field list (concrete inputs in this
development never contain duplicate keys). -/
def jsGetField : List (String × JSValue) → String → JSValue
  | [], _ => .undefined
  | (k, v) :: rest, key => if k = key then v else jsGetField rest key

/-- Guarded property access `v?.key`: `undefined` on every non-object. -/
def jsGet : JSValue → String → JSValue
  | .object fs, key => jsGetField fs key
  | _, _ => .undefined

/-- JavaScript `key in v` for object values. -/
def jsHasProp : JSValue → String → Bool
  | .object fs, key => fs.any (fun kv => kv.1 = key)
  | _, _ => false

/-- JavaScript `a || b` on values. -/
def jsOr (a b : JSValue) : JSValue := if jsTruthy a then a else b

/-- JavaScript `a || b` where both sides are strings. -/
def strOr (a b : String) : String := if a = "" then b else a

mutual
/-- JavaScript `Array.prototype.join(",")` element rendering: `null` and
`undefined` render as the empty string, everything else by `String(...)`. -/
def jsElemToString : JSValue → String
  | .undefined => ""
  | .null => ""
  | .boolean b => if b then "true" else "false"
  | .number n => toString n
  | .string s => s
  | .array es => jsListToString es
  | .object _ => "[object Object]"

/-- Comma-joined rendering of a list of values (JavaScript array toString). -/
def jsListToString : List JSValue → String
  | [] => ""
  | [v] => jsElemToString v
  | v :: rest => jsElemToString v ++ "," ++ jsListToString rest
end

/-- JavaScript `String(v)` coercion. -/
def jsToString : JSValue → String
  | .undefined => "undefined"
  | .null => "null"
  | .boolean b => if b then "true" else "false"
  | .number n => toString n
  | .string s => s
  | .array es => jsListToString es
  | .object _ => "[object Object]"

/-! Transport layer model.  An axios failure carries an optional HTTP
response (status plus decoded body) and the `request`/`message` fields the
sources probe. -/

/-- An HTTP response as seen on an axios error (`error.response`). -/
structure AxiosResp where
  status : Nat
  data : JSValue
deriving Repr

/-- The fields of an axios error object that the embedded sources read:
`message`, `response` and (truthiness of) `request`. -/
structure AxiosErrorData where
  message : String
  response : Option AxiosResp
  hasRequest : Bool
deriving Repr

/-- Classification of an arbitrary thrown value by exactly the runtime
tests `formatError` performs, in order: `isAxiosError` flag, `instanceof
Error`, `typeof === "string"`, anything else. -/
inductive ErrInput where
  | axiosErr (e : AxiosErrorData)
  | plainError (message : String)
  | strVal (s : String)
  | otherVal
deriving Repr

/-- The normalized error shape of `errorHandler.ts` (`ApiError`).  The
`message` and `code` fields are modelled as runtime values because the
formatter copies them out of an untyped response payload; `status` is
absent (`none`) when the source object literal omits it. -/
structure ApiError where
  message : JSValue
  code : JSValue
  status : Option Nat
  details : JSValue
deriving Repr

/-- Interpolation of `error.response?.status` into a template string. -/
def optStatusToString : Option Nat → String
  | some n => toString n
  | none => "undefined"

/-- Rendering of the template `HTTP_<status || "ERROR">`. -/
def statusOrErrorStr : Option Nat → String
  | some n => if n = 0 then "ERROR" else toString n
  | none => "ERROR"

/-- The compound guard of the structured-payload branch of `formatError`:
`responseData && typeof responseData === "object" && "error" in
responseData && responseData.error && typeof responseData.error ===
"object"`. -/
def isStructuredApiErrorPayload (data : JSValue) : Bool :=
  jsTruthy data && jsTypeofObject data && jsHasProp data "error"
    && jsTruthy (jsGet data "error") && jsTypeofObject (jsGet data "error")

/-- The guard of the plain-text branch of `formatError`:
`responseData && typeof responseData === "string"`. -/
def isTextApiErrorPayload (data : JSValue) : Bool :=
  jsTruthy data && data.isString

/-- Embedding of `formatError` (frontend/src/utils/errorHandler.ts). -/
def formatError : ErrInput → ApiError
  | .axiosErr e =>
    let status : Option Nat := e.response.map (fun r => r.status)
    let responseData : JSValue :=
      match e.response with
      | some r => r.data
      | none => .undefined
    if isStructuredApiErrorPayload responseData then
      let errorObj := jsGet responseData "error"
      { message := jsOr (jsGet errorObj "message") (.string "An error occurred"),
        code := jsOr (jsGet errorObj "code")
          (.string ("HTTP_" ++ optStatusToString status)),
        status := status,
        details := jsGet errorObj "details" }
    else if isTextApiErrorPayload responseData then
      { message := responseData,
        code := .string ("HTTP_" ++ optStatusToString status),
        status := status,
        details := .undefined }
    else if e.message = "Network Error" then
      { message := .string
          "Unable to connect to the server. Please check your internet connection.",
        code := .string "NETWORK_ERROR",
        status := none,
        details := .undefined }
    else
      { message := .string (strOr e.message "An unexpected error occurred"),
        code := .string ("HTTP_" ++ statusOrErrorStr status),
        status := status,
        details := .undefined }
  | .plainError msg =>
      { message := .string (strOr msg "An unexpected error occurred"),
        code := .string "APP_ERROR",
        status := none,
        details := .undefined }
  | .strVal s =>
      { message := .string s,
        code := .string "APP_ERROR",
        status := none,
        details := .undefined }
  | .otherVal =>
      { message := .string "An unexpected error occurred",
        code := .string "UNKNOWN_ERROR",
        status := none,
        details := .undefined }

/-- The status-keyed table of curated sentences in
`getUserFriendlyErrorMessage`. -/
def statusMessage : Nat → Option String
  | 400 => some "The request contains invalid data. Please check your input and try again."
  | 401 => some "You need to be logged in to perform this action."
  | 403 => some "You don\x27t have permission to perform this action."
  | 404 => some "The requested resource was not found."
  | 409 => some "This operation couldn\x27t be completed due to a conflict with existing data."
  | 422 => some "The submitted data is invalid. Please check your input and try again."
  | 429 => some "Too many requests. Please try again later."
  | 500 => some "An internal server error occurred. Please try again later."
  | 503 => some "The service is temporarily unavailable. Please try again later."
  | _ => none

/-- The code-keyed table of curated sentences in
`getUserFriendlyErrorMessage` (a JavaScript switch matches only the exact
string values). -/
def codeMessage : JSValue → Option String
  | .string "NETWORK_ERROR" => some "Unable to connect to the server. Please check your internet connection."
  | .string "TIMEOUT_ERROR" => some "The request timed out. Please try again later."
  | .string "DUPLICATE_SERIAL" => some "An asset with this serial number already exists."
  | _ => none

/-- Truthiness of the optional numeric `status` field. -/
def optNatTruthy : Option Nat → Bool
  | some n => n != 0
  | none => false

/-- Embedding of `getUserFriendlyErrorMessage`
(frontend/src/utils/errorHandler.ts): the status switch runs first, then
the code switch, then the raw message is returned. -/
def getUserFriendlyErrorMessage (e : ApiError) : JSValue :=
  match (if optNatTruthy e.status then
      (match e.status with
        | some n => statusMessage n
        | none => none)
    else none) with
  | some s => .string s
  | none =>
    match (if jsTruthy e.code then codeMessage e.code else none) with
    | some s => .string s
    | none => e.message

/-! Typed exception of types/api.ts.  The `Error` superclass constructor
coerces its argument with `String(...)`, so `message` is always a string;
`code` and `details` are stored as passed. -/

/-- Embedding of the `ApiException` class (types/api.ts). -/
structure ApiException where
  status : Nat
  code : JSValue
  message : String
  details : JSValue
deriving Repr

/-- Embedding of `AssetApi.handleApiError` (services/assetApi.ts): the
`if (error.response) / else if (error.request) / else` chain. -/
def handleApiError (e : AxiosErrorData) : ApiException :=
  match e.response with
  | some r =>
    let data := r.data
    let errorMessage :=
      jsOr (jsOr (jsGet (jsGet data "error") "message") (jsGet data "detail"))
        (.string "An error occurred")
    let errorCode :=
      jsOr (jsGet (jsGet data "error") "code")
        (.string ("HTTP_" ++ toString r.status))
    let errorDetails := jsOr (jsGet (jsGet data "error") "details") data
    { status := r.status, code := errorCode,
      message := jsToString errorMessage, details := errorDetails }
  | none =>
    if e.hasRequest then
      { status := 0, code := .string "NETWORK_ERROR",
        message := "Network error - unable to reach server", details := .undefined }
    else
      { status := 0, code := .string "REQUEST_ERROR",
        message := strOr e.message "Request setup error", details := .undefined }

/-! The seven AssetApi operations (services/assetApi.ts).  Each operation
awaits a verb of the raw `api` axios instance and returns `response.data`;
any caught failure is rethrown as `handleApiError(error)`.  The transport
outcome (the axios promise settling) is the explicit argument. -/

/-- Embedding of `AssetApi.getAssets` after the request is issued. -/
def runGetAssets : Except AxiosErrorData AxiosResp → Except ApiException JSValue
  | .ok resp => .ok resp.data
  | .error e => .error (handleApiError e)

/-- Embedding of `AssetApi.getAsset` after the request is issued. -/
def runGetAsset : Except AxiosErrorData AxiosResp → Except ApiException JSValue
  | .ok resp => .ok resp.data
  | .error e => .error (handleApiError e)

/-- Embedding of `AssetApi.createAsset` after the request is issued. -/
def runCreateAsset : Except AxiosErrorData AxiosResp → Except ApiException JSValue
  | .ok resp => .ok resp.data
  | .error e => .error (handleApiError e)

/-- Embedding of `AssetApi.updateAsset` after the request is issued. -/
def runUpdateAsset : Except AxiosErrorData AxiosResp → Except ApiException JSValue
  | .ok resp => .ok resp.data
  | .error e => .error (handleApiError e)

/-- Embedding of `AssetApi.deleteAsset` after the request is issued (the
source returns `void` on success). -/
def runDeleteAsset : Except AxiosErrorData AxiosResp → Except ApiException JSValue
  | .ok _ => .ok .undefined
  | .error e => .error (handleApiError e)

/-- Embedding of `AssetApi.getCategories` after the request is issued. -/
def runGetCategories : Except AxiosErrorData AxiosResp → Except ApiException JSValue
  | .ok resp => .ok resp.data
  | .error e => .error (handleApiError e)

/-- Embedding of `AssetApi.getStatuses` after the request is issued. -/
def runGetStatuses : Except AxiosErrorData AxiosResp → Except ApiException JSValue
  | .ok resp => .ok resp.data
  | .error e => .error (handleApiError e)

/-! Query-string construction of `AssetApi.getAssets`. -/

/-- Embedding of the `AssetFilters` interface (types/asset.ts); every field
is optional. -/
structure AssetFilters where
  search : Option String
  category : Option String
  status : Option String
  page : Option Nat
  pageSize : Option Nat
deriving Repr

/-- One `if (filters?.k) params.append(key, v)` step for a string field. -/
def appendIfTruthyStr (key : String) (v : Option String) : List (String × String) :=
  match v with
  | some s => if s = "" then [] else [(key, s)]
  | none => []

/-- One `if (filters?.k) params.append(key, v.toString())` step for a
numeric field. -/
def appendIfTruthyNat (key : String) (v : Option Nat) : List (String × String) :=
  match v with
  | some n => if n = 0 then [] else [(key, toString n)]
  | none => []

/-- The `URLSearchParams` built by `AssetApi.getAssets`, as the ordered
key-value list the five append guards produce. -/
def getAssetsParams : Option AssetFilters → List (String × String)
  | none => []
  | some f =>
    appendIfTruthyStr "search" f.search ++
    appendIfTruthyStr "category" f.category ++
    appendIfTruthyStr "status" f.status ++
    appendIfTruthyNat "page" f.page ++
    appendIfTruthyNat "page_size" f.pageSize

/-- Rendering `params.toString()` (percent-encoding of values is not
modelled; no claim in this development observes it). -/
def renderQueryString (ps : List (String × String)) : String :=
  String.intercalate "&" (ps.map (fun p => p.1 ++ "=" ++ p.2))

/-- The request URL `AssetApi.getAssets` issues: the base path, with the
query string appended only when it is non-empty. -/
def getAssetsUrl (filters : Option AssetFilters) : String :=
  let queryString := renderQueryString (getAssetsParams filters)
  if queryString = "" then "/api/assets" else "/api/assets" ++ "?" ++ queryString

/-- First value bound to a key in a parameter list. -/
def lookupParam (ps : List (String × String)) (key : String) : Option String :=
  match ps with
  | [] => none
  | (k, v) :: rest => if k = key then some v else lookupParam rest key

/-- A string filter field that is present and truthy (non-empty). -/
def optTruthyStr : Option String → Option String
  | some s => if s = "" then none else some s
  | none => none

/-- A numeric filter field that is present and truthy (non-zero). -/
def optTruthyNat : Option Nat → Option Nat
  | some n => if n = 0 then none else some n
  | none => none

/-! The data hooks (hooks/useAssets.ts).  Each hook owns `loading` and
`error` flags (and, for the fetch hooks, the last data).  Every invocation
synchronously sets `loading=true, error=null`, awaits the operation, and
settles exactly once; the two phases are embedded as a `*Start` function
(the synchronous prefix) and a `*Resolve` function (the continuation run
on the settled outcome, including the `finally` clause). -/

/-- What a hook catch-block observes: the thrown value is either an
`ApiException` (the `instanceof` test succeeds) or anything else. -/
inductive CaughtError where
  | apiExc (e : ApiException)
  | nonApiExc
deriving Repr

/-- Outcome of the awaited AssetApi call inside a hook. -/
inductive FetchOutcome where
  | success (v : JSValue)
  | failure (e : CaughtError)
deriving Repr

/-- State owned by a data-fetching hook: last data, `loading`, `error`. -/
structure FetchHookState where
  data : JSValue
  loading : Bool
  error : Option String
deriving Repr

/-- State owned by a mutation hook: `loading` and `error` only. -/
structure MutationHookState where
  loading : Bool
  error : Option String
deriving Repr

/-- Synchronous prefix of `useAssets.fetchAssets`:
`setLoading(true); setError(null)`. -/
def fetchAssetsStart (s : FetchHookState) : FetchHookState :=
  { s with loading := true, error := none }

/-- Continuation of `useAssets.fetchAssets` on the settled request. -/
def fetchAssetsResolve (s : FetchHookState) : FetchOutcome → FetchHookState
  | .success v => { s with data := v, loading := false }
  | .failure (.apiExc ex) => { s with error := some ex.message, loading := false }
  | .failure .nonApiExc => { s with error := some "Failed to fetch assets", loading := false }

/-- Synchronous prefix of `useAsset.fetchAsset`. -/
def fetchAssetStart (s : FetchHookState) : FetchHookState :=
  { s with loading := true, error := none }

/-- Continuation of `useAsset.fetchAsset` on the settled request. -/
def fetchAssetResolve (s : FetchHookState) : FetchOutcome → FetchHookState
  | .success v => { s with data := v, loading := false }
  | .failure (.apiExc ex) => { s with error := some ex.message, loading := false }
  | .failure .nonApiExc => { s with error := some "Failed to fetch asset", loading := false }

/-- Error string composed by `useCreateAsset`/`useUpdateAsset` when the
exception is an `ApiException`: if `details` is an array, the joined
`d.msg` strings are appended to the message. -/
def mutationErrorMessage (ex : ApiException) : String :=
  match ex.details with
  | .array ds =>
      ex.message ++ ": " ++
        String.intercalate ", " (ds.map (fun d => jsElemToString (jsGet d "msg")))
  | _ => ex.message

/-- Synchronous prefix of `useCreateAsset.createAsset`. -/
def createAssetStart (s : MutationHookState) : MutationHookState :=
  { s with loading := true, error := none }

/-- Continuation of `useCreateAsset.createAsset`; also yields the value
returned to the caller (`Asset` on success, `null` on failure). -/
def createAssetResolve (s : MutationHookState) :
    FetchOutcome → MutationHookState × Option JSValue
  | .success v => ({ s with loading := false }, some v)
  | .failure (.apiExc ex) =>
      ({ s with error := some (mutationErrorMessage ex), loading := false }, none)
  | .failure .nonApiExc =>
      ({ s with error := some "Failed to create asset", loading := false }, none)

/-- Synchronous prefix of `useUpdateAsset.updateAsset`. -/
def updateAssetStart (s : MutationHookState) : MutationHookState :=
  { s with loading := true, error := none }

/-- Continuation of `useUpdateAsset.updateAsset`. -/
def updateAssetResolve (s : MutationHookState) :
    FetchOutcome → MutationHookState × Option JSValue
  | .success v => ({ s with loading := false }, some v)
  | .failure (.apiExc ex) =>
      ({ s with error := some (mutationErrorMessage ex), loading := false }, none)
  | .failure .nonApiExc =>
      ({ s with error := some "Failed to update asset", loading := false }, none)

/-- Synchronous prefix of `useDeleteAsset.deleteAsset`. -/
def deleteAssetStart (s : MutationHookState) : MutationHookState :=
  { s with loading := true, error := none }

/-- Continuation of `useDeleteAsset.deleteAsset`; also yields the boolean
returned to the caller. -/
def deleteAssetResolve (s : MutationHookState) :
    FetchOutcome → MutationHookState × Bool
  | .success _ => ({ s with loading := false }, true)
  | .failure (.apiExc ex) =>
      ({ s with error := some ex.message, loading := false }, false)
  | .failure .nonApiExc =>
      ({ s with error := some "Failed to delete asset", loading := false }, false)

/-- Synchronous prefix of `useCategories.fetchCategories`. -/
def fetchCategoriesStart (s : FetchHookState) : FetchHookState :=
  { s with loading := true, error := none }

/-- Continuation of `useCategories.fetchCategories`. -/
def fetchCategoriesResolve (s : FetchHookState) : FetchOutcome → FetchHookState
  | .success v => { s with data := v, loading := false }
  | .failure (.apiExc ex) => { s with error := some ex.message, loading := false }
  | .failure .nonApiExc => { s with error := some "Failed to fetch categories", loading := false }

/-- Synchronous prefix of `useStatuses.fetchStatuses`. -/
def fetchStatusesStart (s : FetchHookState) : FetchHookState :=
  { s with loading := true, error := none }

/-- Continuation of `useStatuses.fetchStatuses`. -/
def fetchStatusesResolve (s : FetchHookState) : FetchOutcome → FetchHookState
  | .success v => { s with data := v, loading := false }
  | .failure (.apiExc ex) => { s with error := some ex.message, loading := false }
  | .failure .nonApiExc => { s with error := some "Failed to fetch statuses", loading := false }

/-! Local validation (AssetApi.validateAssetData).  The request payload
fields are embedded with the types the form submits; `purchasePrice` is a
rational since the source compares it with `<= 0`. -/

/-- Embedding of `CreateAssetRequest` / `UpdateAssetRequest`
(types/asset.ts); the two interfaces are identical. -/
structure CreateAssetRequest where
  name : String
  description : String
  category : String
  serialNumber : String
  purchaseDate : String
  purchasePrice : ℚ
  status : String
deriving Repr

/-- Embedding of `AssetApi.validateAssetData` (services/assetApi.ts): the
six guarded `errors.push` statements, in source order.  `!s?.trim()` on a
string is the trimmed-emptiness test; `!asset.purchaseDate` and
`!asset.status` are emptiness tests on the string fields. -/
def validateAssetData (asset : CreateAssetRequest) : List String :=
  (if asset.name.trim = "" then ["Asset name is required"] else []) ++
  (if asset.category.trim = "" then ["Category is required"] else []) ++
  (if asset.serialNumber.trim = "" then ["Serial number is required"] else []) ++
  (if asset.purchaseDate = "" then ["Purchase date is required"] else []) ++
  (if asset.purchasePrice ≤ 0 then ["Purchase price must be greater than 0"] else []) ++
  (if asset.status = "" then ["Status is required"] else [])

/-! Toast registry (contexts/ToastContext.tsx).  The provider state is the
ordered list of active toasts; `removeToast` filters by identifier. -/

/-- Toast type union of components/Toast.tsx. -/
inductive ToastType where
  | success
  | error
  | info
  | warning
deriving Repr, DecidableEq

/-- Embedding of `ToastProps` (components/Toast.tsx), without the
`onClose` callback. -/
structure ToastProps where
  id : String
  message : String
  type : ToastType
  duration : Nat
deriving Repr, DecidableEq

/-- Embedding of `removeToast` (contexts/ToastContext.tsx):
`prevToasts.filter((toast) => toast.id !== id)`. -/
def removeToast (id : String) (toasts : List ToastProps) : List ToastProps :=
  toasts.filter (fun toast => toast.id != id)

/-- Embedding of `clearAllToasts` (contexts/ToastContext.tsx). -/
def clearAllToasts (_toasts : List ToastProps) : List ToastProps := []

/-! Response interceptors.  A rejected promise carries a dynamically typed
value; `RejectionValue` distinguishes the shapes that occur. -/

/-- The value a rejected request promise can carry in this codebase. -/
inductive RejectionValue where
  | rawAxios (e : AxiosErrorData)
  | formatted (e : ApiError)
deriving Repr

/-- Embedding of the error path of the `api` response interceptor
(services/api.ts, the instance `AssetApi` imports): after logging it
returns `Promise.reject(error)` - the raw axios error, unchanged. -/
def apiResponseInterceptorOnRejected (e : AxiosErrorData) : RejectionValue :=
  .rawAxios e

/-- Embedding of the error path of the `axiosInstance` response
interceptor (frontend/src/utils/apiClient.ts): it returns
`Promise.reject(formatError(error))`. -/
def axiosInstanceResponseInterceptorOnRejected (e : AxiosErrorData) : RejectionValue :=
  .formatted (formatError (.axiosErr e))

/-! Specification-side definitions.  Each of the following is written from
the wording of a specification sentence (not from the source) so that it
can be compared against the embedded source functions. -/

/-- Written from the specified resource-API failure contract: with a
response envelope, the exception takes status from the response, code from
the envelope falling back to `HTTP_<status>`, message from the envelope
(the structured message, else the top-level `detail` field) falling back
to the generic message, and details from the envelope falling back to the
whole payload; a request that was sent but got no response yields status 0
with code `NETWORK_ERROR`; anything else yields status 0 with code
`REQUEST_ERROR`. -/
def handleApiErrorContract (e : AxiosErrorData) : ApiException :=
  match e.response with
  | some r =>
      { status := r.status,
        code := jsOr (jsGet (jsGet r.data "error") "code")
          (.string ("HTTP_" ++ toString r.status)),
        message := jsToString
          (jsOr (jsOr (jsGet (jsGet r.data "error") "message") (jsGet r.data "detail"))
            (.string "An error occurred")),
        details := jsOr (jsGet (jsGet r.data "error") "details") r.data }
  | none =>
      if e.hasRequest then
        ⟨0, .string "NETWORK_ERROR", "Network error - unable to reach server", .undefined⟩
      else
        ⟨0, .string "REQUEST_ERROR", strOr e.message "Request setup error", .undefined⟩

/-- Written from the claimed case analysis of `formatError`, read literally:
a transport error with a structured envelope payload yields its fields; a
transport error with a plain-string payload yields it as message with code
`HTTP_<status>`; a transport connectivity failure with no response received
yields the unable-to-connect message with `NETWORK_ERROR`; a generic Error
object yields its message with `APP_ERROR`; a plain string is wrapped with
`APP_ERROR`; any other input yields `UNKNOWN_ERROR`. -/
def formatErrorClaimed : ErrInput → ApiError
  | .axiosErr e =>
    let status : Option Nat := e.response.map (fun r => r.status)
    let responseData : JSValue :=
      match e.response with
      | some r => r.data
      | none => .undefined
    if isStructuredApiErrorPayload responseData then
      let errorObj := jsGet responseData "error"
      { message := jsOr (jsGet errorObj "message") (.string "An error occurred"),
        code := jsOr (jsGet errorObj "code")
          (.string ("HTTP_" ++ optStatusToString status)),
        status := status,
        details := jsGet errorObj "details" }
    else if isTextApiErrorPayload responseData then
      { message := responseData,
        code := .string ("HTTP_" ++ optStatusToString status),
        status := status,
        details := .undefined }
    else if e.response.isNone then
      { message := .string
          "Unable to connect to the server. Please check your internet connection.",
        code := .string "NETWORK_ERROR",
        status := none,
        details := .undefined }
    else
      { message := .string e.message,
        code := .string "APP_ERROR",
        status := none,
        details := .undefined }
  | .plainError msg =>
      { message := .string msg,
        code := .string "APP_ERROR",
        status := none,
        details := .undefined }
  | .strVal s =>
      { message := .string s,
        code := .string "APP_ERROR",
        status := none,
        details := .undefined }
  | .otherVal =>
      { message := .string "An unexpected error occurred",
        code := .string "UNKNOWN_ERROR",
        status := none,
        details := .undefined }

/-- The input categories `formatError` actually distinguishes, in branch
order (amended case analysis). -/
inductive ErrCategory where
  | structuredEnvelope (status : Nat) (errObj : JSValue)
  | textEnvelope (status : Nat) (payload : JSValue)
  | connectivity
  | axiosDefault (message : String) (status : Option Nat)
  | appError (message : String)
  | appErrorString (s : String)
  | unknownInput
deriving Repr

/-- Classification of an input by the amended case analysis: the envelope
branches require a response payload of the matching shape; the
connectivity branch requires the error message to be exactly
"Network Error"; every remaining transport error falls to the default
transport branch. -/
def classifyError : ErrInput → ErrCategory
  | .axiosErr e =>
    match e.response with
    | some r =>
      if isStructuredApiErrorPayload r.data then
        .structuredEnvelope r.status (jsGet r.data "error")
      else if isTextApiErrorPayload r.data then
        .textEnvelope r.status r.data
      else if e.message = "Network Error" then
        .connectivity
      else
        .axiosDefault e.message (some r.status)
    | none =>
      if e.message = "Network Error" then
        .connectivity
      else
        .axiosDefault e.message none
  | .plainError msg => .appError msg
  | .strVal s => .appErrorString s
  | .otherVal => .unknownInput

/-- The output the amended case analysis prescribes for each category. -/
def renderErrCategory : ErrCategory → ApiError
  | .structuredEnvelope st errObj =>
      { message := jsOr (jsGet errObj "message") (.string "An error occurred"),
        code := jsOr (jsGet errObj "code") (.string ("HTTP_" ++ toString st)),
        status := some st,
        details := jsGet errObj "details" }
  | .textEnvelope st payload =>
      { message := payload,
        code := .string ("HTTP_" ++ toString st),
        status := some st,
        details := .undefined }
  | .connectivity =>
      { message := .string
          "Unable to connect to the server. Please check your internet connection.",
        code := .string "NETWORK_ERROR",
        status := none,
        details := .undefined }
  | .axiosDefault m st =>
      { message := .string (strOr m "An unexpected error occurred"),
        code := .string ("HTTP_" ++ statusOrErrorStr st),
        status := st,
        details := .undefined }
  | .appError m =>
      { message := .string (strOr m "An unexpected error occurred"),
        code := .string "APP_ERROR",
        status := none,
        details := .undefined }
  | .appErrorString s =>
      { message := .string s,
        code := .string "APP_ERROR",
        status := none,
        details := .undefined }
  | .unknownInput =>
      { message := .string "An unexpected error occurred",
        code := .string "UNKNOWN_ERROR",
        status := none,
        details := .undefined }

/-- The amended case analysis of `formatError` as a function:
classification followed by rendering. -/
def formatErrorCases (e : ErrInput) : ApiError :=
  renderErrCategory (classifyError e)

/-- The status-to-sentence table of the user-message specification. -/
def statusSentences : List (Nat × String) :=
  [(400, "The request contains invalid data. Please check your input and try again."),
   (401, "You need to be logged in to perform this action."),
   (403, "You don\x27t have permission to perform this action."),
   (404, "The requested resource was not found."),
   (409, "This operation couldn\x27t be completed due to a conflict with existing data."),
   (422, "The submitted data is invalid. Please check your input and try again."),
   (429, "Too many requests. Please try again later."),
   (500, "An internal server error occurred. Please try again later."),
   (503, "The service is temporarily unavailable. Please try again later.")]

/-- The code-to-sentence table of the user-message specification. -/
def codeSentences : List (String × String) :=
  [("NETWORK_ERROR", "Unable to connect to the server. Please check your internet connection."),
   ("TIMEOUT_ERROR", "The request timed out. Please try again later."),
   ("DUPLICATE_SERIAL", "An asset with this serial number already exists.")]

/-- The code-level sentence for a formatted code value: only an exact
string key of the code table maps to a sentence. -/
def codeSentenceFor (c : JSValue) : Option String :=
  match c with
  | .string s => codeSentences.lookup s
  | _ => none

/-- Written from the amended user-message claim: a mapped status wins; a
code-level sentence applies only when the status is absent or unmapped;
otherwise the raw formatted message is returned. -/
def userFriendlyMessageSpec (e : ApiError) : JSValue :=
  match e.status.bind (fun n => statusSentences.lookup n) with
  | some s => .string s
  | none =>
    match codeSentenceFor e.code with
    | some s => .string s
    | none => e.message

/-- Whether the input is a transport error whose structured envelope
carries a truthy non-string `message` value - the only inputs on which
`formatError` emits a non-string message. -/
def structuredNonStringMessage : ErrInput → Bool
  | .axiosErr a =>
    match a.response with
    | some r =>
      isStructuredApiErrorPayload r.data
        && jsTruthy (jsGet (jsGet r.data "error") "message")
        && !(jsGet (jsGet r.data "error") "message").isString
    | none => false
  | _ => false

/-! Concrete inputs used by the counterexample and witness theorems. -/

/-- An axios timeout failure: the request was sent, no response arrived,
and the axios message is the timeout text, not "Network Error". -/
def timeoutAxiosError : AxiosErrorData :=
  ⟨"timeout of 10000ms exceeded", none, true⟩

/-- A 500 response whose structured envelope carries a numeric `message`
value. -/
def nonStringMessageEnvelope : AxiosErrorData :=
  ⟨"Request failed with status code 500",
    some ⟨500, .object [("error", .object [("message", .number 5)])]⟩, true⟩

/-- A 408 response whose structured envelope carries the server-supplied
code `TIMEOUT_ERROR`. -/
def serverTimeoutEnvelope : AxiosErrorData :=
  ⟨"Request failed with status code 408",
    some ⟨408, .object [("error",
      .object [("code", .string "TIMEOUT_ERROR"),
               ("message", .string "upstream timeout")])]⟩, true⟩

/-- An `ApiException` whose `details` is an array of per-field validation
messages, as the backend sends for 422 responses. -/
def validationDetailsException : ApiException :=
  ⟨422, .string "VALIDATION_ERROR", "Validation failed",
    .array [.object [("msg", .string "name required")]]⟩

/-- A connectivity failure as axios reports it. -/
def sampleNetworkFailure : AxiosErrorData :=
  ⟨"Network Error", none, true⟩

/-- A one-element toast registry used by the idempotence witness. -/
def sampleToasts : List ToastProps :=
  [⟨"a", "saved", .info, 5000⟩]

/-! Theorems. -/

/-- A string with the `HTTP_` prefix is never empty. -/
theorem httpCode_ne_empty (s : String) : ("HTTP_" ++ s) ≠ "" := by
  intro h
  have h2 := congrArg String.length h
  simp [String.length_append] at h2
  exact absurd h2.1 (by decide)

/-- C1 (amended): every data hook invocation synchronously sets
`loading=true, error=null` with the data untouched; on success the data
hooks store the result with `loading=false` and `error` still null; on an
`ApiException` failure the hooks set `loading=false`, keep the previous
data, and set `error` to the exception message - except the create and
update hooks, which append the joined per-item `msg` strings when the
exception `details` is an array (`mutationErrorMessage`); a non-typed
failure stores the per-operation generic fallback string. -/
theorem hooks_state_machine (s : FetchHookState) (t : MutationHookState)
    (v : JSValue) (ex : ApiException) :
    fetchAssetsStart s = ⟨s.data, true, none⟩ ∧
    fetchAssetStart s = ⟨s.data, true, none⟩ ∧
    fetchCategoriesStart s = ⟨s.data, true, none⟩ ∧
    fetchStatusesStart s = ⟨s.data, true, none⟩ ∧
    createAssetStart t = ⟨true, none⟩ ∧
    updateAssetStart t = ⟨true, none⟩ ∧
    deleteAssetStart t = ⟨true, none⟩ ∧
    fetchAssetsResolve (fetchAssetsStart s) (.success v) = ⟨v, false, none⟩ ∧
    fetchAssetResolve (fetchAssetStart s) (.success v) = ⟨v, false, none⟩ ∧
    fetchCategoriesResolve (fetchCategoriesStart s) (.success v) = ⟨v, false, none⟩ ∧
    fetchStatusesResolve (fetchStatusesStart s) (.success v) = ⟨v, false, none⟩ ∧
    createAssetResolve (createAssetStart t) (.success v) = (⟨false, none⟩, some v) ∧
    updateAssetResolve (updateAssetStart t) (.success v) = (⟨false, none⟩, some v) ∧
    deleteAssetResolve (deleteAssetStart t) (.success v) = (⟨false, none⟩, true) ∧
    fetchAssetsResolve (fetchAssetsStart s) (.failure (.apiExc ex)) =
      ⟨s.data, false, some ex.message⟩ ∧
    fetchAssetResolve (fetchAssetStart s) (.failure (.apiExc ex)) =
      ⟨s.data, false, some ex.message⟩ ∧
    fetchCategoriesResolve (fetchCategoriesStart s) (.failure (.apiExc ex)) =
      ⟨s.data, false, some ex.message⟩ ∧
    fetchStatusesResolve (fetchStatusesStart s) (.failure (.apiExc ex)) =
      ⟨s.data, false, some ex.message⟩ ∧
    createAssetResolve (createAssetStart t) (.failure (.apiExc ex)) =
      (⟨false, some (mutationErrorMessage ex)⟩, none) ∧
    updateAssetResolve (updateAssetStart t) (.failure (.apiExc ex)) =
      (⟨false, some (mutationErrorMessage ex)⟩, none) ∧
    deleteAssetResolve (deleteAssetStart t) (.failure (.apiExc ex)) =
      (⟨false, some ex.message⟩, false) ∧
    fetchAssetsResolve (fetchAssetsStart s) (.failure .nonApiExc) =
      ⟨s.data, false, some "Failed to fetch assets"⟩ ∧
    fetchAssetResolve (fetchAssetStart s) (.failure .nonApiExc) =
      ⟨s.data, false, some "Failed to fetch asset"⟩ ∧
    fetchCategoriesResolve (fetchCategoriesStart s) (.failure .nonApiExc) =
      ⟨s.data, false, some "Failed to fetch categories"⟩ ∧
    fetchStatusesResolve (fetchStatusesStart s) (.failure .nonApiExc) =
      ⟨s.data, false, some "Failed to fetch statuses"⟩ ∧
    createAssetResolve (createAssetStart t) (.failure .nonApiExc) =
      (⟨false, some "Failed to create asset"⟩, none) ∧
    updateAssetResolve (updateAssetStart t) (.failure .nonApiExc) =
      (⟨false, some "Failed to update asset"⟩, none) ∧
    deleteAssetResolve (deleteAssetStart t) (.failure .nonApiExc) =
      (⟨false, some "Failed to delete asset"⟩, false) :=
  ⟨rfl, rfl, rfl, rfl, rfl, rfl, rfl, rfl, rfl, rfl, rfl, rfl, rfl, rfl,
   rfl, rfl, rfl, rfl, rfl, rfl, rfl, rfl, rfl, rfl, rfl, rfl, rfl, rfl⟩

/-- C1 counterexample: on an `ApiException` carrying an array of
validation details, the create hook stores the exception message with the
joined detail messages appended - not the exception message itself, as
claimed. -/
theorem createAsset_error_message_counterexample :
    (createAssetResolve (createAssetStart ⟨false, none⟩)
        (.failure (.apiExc validationDetailsException))).1.error =
      some "Validation failed: name required" ∧
    validationDetailsException.message = "Validation failed" ∧
    (createAssetResolve (createAssetStart ⟨false, none⟩)
        (.failure (.apiExc validationDetailsException))).1.error ≠
      some validationDetailsException.message :=
  ⟨rfl, rfl, by decide⟩

/-- C2: every resource-API operation (list, get, create, update, delete,
categories, statuses) rejects each transport failure with the
`ApiException` built by the specified case analysis: envelope-derived
fields with `HTTP_<status>` and generic-message fallbacks when a response
is present, status 0 with `NETWORK_ERROR` when the request got no
response, status 0 with `REQUEST_ERROR` otherwise. -/
theorem assetApi_error_conversion (e : AxiosErrorData) :
    runGetAssets (.error e) = .error (handleApiErrorContract e) ∧
    runGetAsset (.error e) = .error (handleApiErrorContract e) ∧
    runCreateAsset (.error e) = .error (handleApiErrorContract e) ∧
    runUpdateAsset (.error e) = .error (handleApiErrorContract e) ∧
    runDeleteAsset (.error e) = .error (handleApiErrorContract e) ∧
    runGetCategories (.error e) = .error (handleApiErrorContract e) ∧
    runGetStatuses (.error e) = .error (handleApiErrorContract e) := by
  have h : handleApiError e = handleApiErrorContract e := by
    rcases e with ⟨m, resp, hr⟩
    cases resp <;> cases hr <;> rfl
  refine ⟨?_, ?_, ?_, ?_, ?_, ?_, ?_⟩ <;>
    simp [runGetAssets, runGetAsset, runCreateAsset, runUpdateAsset,
      runDeleteAsset, runGetCategories, runGetStatuses, h]

/-- C6 counterexample: the response interceptor of the `api` instance the
asset layer imports rejects with the raw axios error object, not with the
formatted shape. -/
theorem api_interceptor_raw_rejection_counterexample :
    apiResponseInterceptorOnRejected sampleNetworkFailure =
      .rawAxios sampleNetworkFailure ∧
    apiResponseInterceptorOnRejected sampleNetworkFailure ≠
      .formatted (formatError (.axiosErr sampleNetworkFailure)) :=
  ⟨rfl, fun h => nomatch h⟩

/-- C6 (amended): the wrapper in apiClient.ts rejects with the formatted
error shape, but the wrapper the asset layer actually uses (services/api.ts)
rejects with the raw axios error; normalization for asset callers happens
in `AssetApi.handleApiError`, which each operation applies to the caught
failure. -/
theorem rejection_normalization (e : AxiosErrorData) :
    apiResponseInterceptorOnRejected e = .rawAxios e ∧
    axiosInstanceResponseInterceptorOnRejected e =
      .formatted (formatError (.axiosErr e)) ∧
    runGetAssets (.error e) = .error (handleApiError e) :=
  ⟨rfl, rfl, rfl⟩

/-- C9: `removeToast` is idempotent - removing the same identifier twice
equals removing it once - and removing an identifier that is absent from
the registry leaves the registry (size and order included) unchanged. -/
theorem removeToast_idempotent (i : String) (ts : List ToastProps) :
    removeToast i (removeToast i ts) = removeToast i ts ∧
    ((∀ t ∈ ts, t.id ≠ i) → removeToast i ts = ts) := by
  constructor
  · simp [removeToast, List.filter_filter]
  · intro h
    exact List.filter_eq_self.mpr (fun t ht => bne_iff_ne.mpr (h t ht))

/-- C9 witness: on a registry holding one toast with identifier "a",
removing "x" twice equals removing it once, and removing the absent "x"
leaves the registry unchanged. -/
theorem removeToast_idempotent_witness :
    removeToast "x" (removeToast "x" sampleToasts) = removeToast "x" sampleToasts ∧
    removeToast "x" sampleToasts = sampleToasts :=
  ⟨(removeToast_idempotent "x" sampleToasts).1,
   (removeToast_idempotent "x" sampleToasts).2 (by decide)⟩

/-- A disjunction of a value with a non-empty fallback string is truthy. -/
theorem jsTruthy_jsOr_string (a : JSValue) (s : String) (hs : s ≠ "") :
    jsTruthy (jsOr a (.string s)) = true := by
  by_cases h : jsTruthy a = true
  · simp only [jsOr]
    rw [if_pos h]
    exact h
  · simp only [jsOr]
    rw [if_neg h]
    simp [jsTruthy, bne_iff_ne, hs]

/-- C3 counterexample: on an axios timeout failure (no response received,
message not "Network Error"), `formatError` returns the original message
with code `HTTP_ERROR`, while the claimed case analysis prescribes the
unable-to-connect message with code `NETWORK_ERROR`. -/
theorem formatError_timeout_counterexample :
    formatError (.axiosErr timeoutAxiosError) =
      ⟨.string "timeout of 10000ms exceeded", .string "HTTP_ERROR", none, .undefined⟩ ∧
    formatErrorClaimed (.axiosErr timeoutAxiosError) =
      ⟨.string "Unable to connect to the server. Please check your internet connection.",
        .string "NETWORK_ERROR", none, .undefined⟩ ∧
    formatError (.axiosErr timeoutAxiosError) ≠
      formatErrorClaimed (.axiosErr timeoutAxiosError) := by
  refine ⟨rfl, rfl, ?_⟩
  intro h
  have h2 := congrArg ApiError.code h
  rw [show (formatError (.axiosErr timeoutAxiosError)).code =
        .string "HTTP_ERROR" from rfl,
      show (formatErrorClaimed (.axiosErr timeoutAxiosError)).code =
        .string "NETWORK_ERROR" from rfl] at h2
  injection h2 with h3
  exact absurd h3 (by decide)

/-- C3 (amended): `formatError` implements exactly the amended case
analysis `formatErrorCases` - structured envelope, plain-string envelope,
connectivity failure keyed on the message being exactly "Network Error",
default transport branch with code `HTTP_<status or ERROR>`, generic
Error, plain string, unknown fallback. -/
theorem formatError_case_analysis (e : ErrInput) :
    formatError e = formatErrorCases e := by
  rcases e with ⟨m, resp, hr⟩ | m | s | _
  · cases resp with
    | none =>
        by_cases hm : m = "Network Error" <;>
          simp [formatError, formatErrorCases, classifyError, renderErrCategory,
            isStructuredApiErrorPayload, isTextApiErrorPayload, jsTruthy, hm]
    | some r =>
        by_cases h1 : isStructuredApiErrorPayload r.data
        · simp [formatError, formatErrorCases, classifyError, renderErrCategory,
            h1, optStatusToString]
        · by_cases h2 : isTextApiErrorPayload r.data
          · simp [formatError, formatErrorCases, classifyError, renderErrCategory,
              h1, h2, optStatusToString]
          · by_cases hm : m = "Network Error" <;>
              simp [formatError, formatErrorCases, classifyError, renderErrCategory,
                h1, h2, hm]
  · rfl
  · rfl
  · rfl

/-- C5 counterexample: a structured envelope carrying a numeric `message`
value flows through `formatError` unchanged, so the formatted record does
not hold a string message. -/
theorem formatError_nonstring_message_counterexample :
    formatError (.axiosErr nonStringMessageEnvelope) =
      ⟨.number 5, .string "HTTP_500", some 500, .undefined⟩ ∧
    (JSValue.number 5).isString = false :=
  ⟨rfl, rfl⟩

/-- C5 (amended): `formatError` is total over every modelled input shape
and always returns a record with a truthy `code`; its `message` is a
string on every input except a transport error whose structured envelope
carries a truthy non-string message value, which is passed through. -/
theorem formatError_total_shape (e : ErrInput) :
    jsTruthy (formatError e).code = true ∧
    ((formatError e).message.isString = true ∨ structuredNonStringMessage e = true) := by
  rcases e with ⟨m, resp, hr⟩ | m | s | _
  · cases resp with
    | none =>
        by_cases hm : m = "Network Error"
        · constructor
          · simp [formatError, isStructuredApiErrorPayload, isTextApiErrorPayload,
              jsTruthy, hm]
          · left
            simp [formatError, isStructuredApiErrorPayload, isTextApiErrorPayload,
              jsTruthy, hm, JSValue.isString]
        · constructor
          · have hne := httpCode_ne_empty (statusOrErrorStr none)
            simp [formatError, isStructuredApiErrorPayload, isTextApiErrorPayload,
              jsTruthy, hm, bne_iff_ne, hne]
          · left
            simp [formatError, isStructuredApiErrorPayload, isTextApiErrorPayload,
              jsTruthy, hm, JSValue.isString]
    | some r =>
        by_cases h1 : isStructuredApiErrorPayload r.data
        · constructor
          · have := jsTruthy_jsOr_string (jsGet (jsGet r.data "error") "code")
              ("HTTP_" ++ optStatusToString (some r.status)) (httpCode_ne_empty _)
            simp [formatError, h1]
            exact this
          · by_cases h2 : jsTruthy (jsGet (jsGet r.data "error") "message")
            · by_cases h3 : (jsGet (jsGet r.data "error") "message").isString
              · left
                simp [formatError, h1, jsOr, h2, h3]
              · right
                simp [structuredNonStringMessage, h1, h2, h3]
            · left
              simp [formatError, h1, jsOr, h2, JSValue.isString]
        · by_cases h2 : isTextApiErrorPayload r.data
          · constructor
            · have hne := httpCode_ne_empty (optStatusToString (some r.status))
              simp [formatError, h1, h2, jsTruthy, bne_iff_ne, hne]
            · left
              have h3 : r.data.isString = true := by
                simp [isTextApiErrorPayload, Bool.and_eq_true] at h2
                exact h2.2
              simp [formatError, h1, h2, h3]
          · by_cases hm : m = "Network Error"
            · constructor
              · simp [formatError, h1, h2, hm, jsTruthy]
              · left
                simp [formatError, h1, h2, hm, JSValue.isString]
            · constructor
              · have hne := httpCode_ne_empty (statusOrErrorStr (some r.status))
                simp [formatError, h1, h2, hm, jsTruthy, bne_iff_ne, hne]
              · left
                simp [formatError, h1, h2, hm, JSValue.isString]
  · exact ⟨by simp [formatError, jsTruthy], Or.inl (by simp [formatError, JSValue.isString])⟩
  · exact ⟨by simp [formatError, jsTruthy], Or.inl (by simp [formatError, JSValue.isString])⟩
  · exact ⟨by simp [formatError, jsTruthy], Or.inl (by simp [formatError, JSValue.isString])⟩

/-- C10 counterexample: a server-supplied `TIMEOUT_ERROR` code in a
structured envelope passes through `formatError`, and on the resulting
record `getUserFriendlyErrorMessage` does return the timeout sentence. -/
theorem timeout_code_passthrough_counterexample :
    formatError (.axiosErr serverTimeoutEnvelope) =
      ⟨.string "upstream timeout", .string "TIMEOUT_ERROR", some 408, .undefined⟩ ∧
    getUserFriendlyErrorMessage (formatError (.axiosErr serverTimeoutEnvelope)) =
      .string "The request timed out. Please try again later." :=
  ⟨rfl, rfl⟩

/-- C10 (amended): for every axios-flagged error with no response and a
message other than exactly "Network Error", `formatError` returns the
message (or the generic fallback) with code `HTTP_ERROR` and no status;
`formatError` never synthesizes `TIMEOUT_ERROR` itself, though a
server-supplied code passes through (see the counterexample). -/
theorem formatError_no_response_default (m : String) (hr : Bool)
    (h : m ≠ "Network Error") :
    formatError (.axiosErr ⟨m, none, hr⟩) =
      ⟨.string (strOr m "An unexpected error occurred"), .string "HTTP_ERROR",
        none, .undefined⟩ := by
  simp [formatError, isStructuredApiErrorPayload, isTextApiErrorPayload,
    jsTruthy, h, statusOrErrorStr]

/-- C10 witness: the amended statement evaluated on a concrete axios
timeout failure. -/
theorem formatError_no_response_default_witness :
    formatError (.axiosErr ⟨"timeout of 10000ms exceeded", none, true⟩) =
      ⟨.string (strOr "timeout of 10000ms exceeded" "An unexpected error occurred"),
        .string "HTTP_ERROR", none, .undefined⟩ :=
  formatError_no_response_default "timeout of 10000ms exceeded" true (by decide)

/-- The status switch of `getUserFriendlyErrorMessage` agrees with lookup
in the specification table. -/
theorem statusMessage_eq_lookup (n : Nat) :
    statusMessage n = statusSentences.lookup n := by
  rw [statusMessage.eq_def]
  split
  all_goals simp only [statusSentences, List.lookup]
  all_goals first
    | rfl
    | (repeat (first | rfl | (split <;> simp_all)))

/-- The code switch of `getUserFriendlyErrorMessage`, including its
truthiness guard, agrees with the specification code table. -/
theorem codeMessage_eq_lookup (c : JSValue) :
    (if jsTruthy c then codeMessage c else none) = codeSentenceFor c := by
  cases c with
  | undefined => simp [jsTruthy, codeSentenceFor]
  | null => simp [jsTruthy, codeSentenceFor]
  | boolean b => cases b <;> simp [jsTruthy, codeMessage, codeSentenceFor]
  | number n => simp [jsTruthy, codeMessage, codeSentenceFor]
  | array es => simp [jsTruthy, codeMessage, codeSentenceFor]
  | object fs => simp [jsTruthy, codeMessage, codeSentenceFor]
  | string s =>
    by_cases hs : s = ""
    · subst hs
      simp [jsTruthy, codeSentenceFor, codeSentences, List.lookup]
    · have ht : jsTruthy (.string s) = true := by
        simp [jsTruthy, bne_iff_ne, hs]
      rw [if_pos ht]
      rw [codeMessage.eq_def]
      split
      all_goals simp only [codeSentenceFor, codeSentences, List.lookup]
      all_goals first
        | rfl
        | (repeat (first | rfl | (split <;> simp_all)))

/-- C4 counterexample: a formatted error with status 409 and code
`DUPLICATE_SERIAL` maps to the conflict sentence, not to the
serial-number-already-exists sentence - the status table takes precedence
over the code-level override. -/
theorem duplicateSerial_conflict_counterexample :
    getUserFriendlyErrorMessage
      ⟨.string "Duplicate serial number", .string "DUPLICATE_SERIAL", some 409, .undefined⟩ =
      .string "This operation couldn\x27t be completed due to a conflict with existing data." ∧
    getUserFriendlyErrorMessage
      ⟨.string "Duplicate serial number", .string "DUPLICATE_SERIAL", some 409, .undefined⟩ ≠
      .string "An asset with this serial number already exists." := by
  refine ⟨rfl, ?_⟩
  intro h
  rw [show getUserFriendlyErrorMessage
      ⟨.string "Duplicate serial number", .string "DUPLICATE_SERIAL", some 409, .undefined⟩ =
      .string "This operation couldn\x27t be completed due to a conflict with existing data."
    from rfl] at h
  injection h with h2
  exact absurd h2 (by decide)

/-- C4 (amended): `getUserFriendlyErrorMessage` returns the curated
sentence of a mapped truthy status; the code-level overrides for
`NETWORK_ERROR`, `TIMEOUT_ERROR` and `DUPLICATE_SERIAL` apply only when
the status is absent, zero, or unmapped; otherwise the raw formatted
message is returned. -/
theorem userFriendlyMessage_precedence (e : ApiError) :
    getUserFriendlyErrorMessage e = userFriendlyMessageSpec e := by
  rcases e with ⟨m, c, st, d⟩
  have hstat :
      (if optNatTruthy st then
        (match st with
          | some n => statusMessage n
          | none => none)
      else none) = st.bind (fun n => statusSentences.lookup n) := by
    cases st with
    | none => simp [optNatTruthy]
    | some n =>
      by_cases hn : n = 0
      · subst hn
        simp [optNatTruthy, statusSentences, List.lookup]
      · have ht : optNatTruthy (some n) = true := by
          simp [optNatTruthy, bne_iff_ne, hn]
        rw [if_pos ht]
        simp [statusMessage_eq_lookup]
  simp only [getUserFriendlyErrorMessage, userFriendlyMessageSpec]
  rw [hstat, codeMessage_eq_lookup]

/-- C7: `validateAssetData` returns the empty list exactly when the name,
category and serial number are non-blank, the purchase date and status
are present (non-empty) and the purchase price is positive; each violated
requirement contributes exactly its field-naming message.  The check is a
pure function of the payload. -/
theorem validateAssetData_spec (a : CreateAssetRequest) :
    (validateAssetData a = [] ↔
      (a.name.trim ≠ "" ∧ a.category.trim ≠ "" ∧ a.serialNumber.trim ≠ "" ∧
        a.purchaseDate ≠ "" ∧ 0 < a.purchasePrice ∧ a.status ≠ "")) ∧
    ("Asset name is required" ∈ validateAssetData a ↔ a.name.trim = "") ∧
    ("Category is required" ∈ validateAssetData a ↔ a.category.trim = "") ∧
    ("Serial number is required" ∈ validateAssetData a ↔ a.serialNumber.trim = "") ∧
    ("Purchase date is required" ∈ validateAssetData a ↔ a.purchaseDate = "") ∧
    ("Purchase price must be greater than 0" ∈ validateAssetData a ↔
      a.purchasePrice ≤ 0) ∧
    ("Status is required" ∈ validateAssetData a ↔ a.status = "") := by
  unfold validateAssetData
  split_ifs <;> simp_all [not_le, le_of_lt]

/-- C8: `getAssets` serializes exactly the present-and-truthy filter
fields, with `pageSize` under the wire name `page_size` and never under
`pageSize`; every emitted key is one of the five wire names; with no
filters, or with all fields absent, the URL carries no query string. -/
theorem getAssets_query_serialization (f : AssetFilters) :
    lookupParam (getAssetsParams (some f)) "search" = optTruthyStr f.search ∧
    lookupParam (getAssetsParams (some f)) "category" = optTruthyStr f.category ∧
    lookupParam (getAssetsParams (some f)) "status" = optTruthyStr f.status ∧
    lookupParam (getAssetsParams (some f)) "page" =
      (optTruthyNat f.page).map (fun n => toString n) ∧
    lookupParam (getAssetsParams (some f)) "page_size" =
      (optTruthyNat f.pageSize).map (fun n => toString n) ∧
    lookupParam (getAssetsParams (some f)) "pageSize" = none ∧
    ((getAssetsParams (some f)).all (fun p =>
      p.1 == "search" || p.1 == "category" || p.1 == "status" ||
        p.1 == "page" || p.1 == "page_size")) = true ∧
    getAssetsUrl none = "/api/assets" ∧
    getAssetsUrl (some ⟨none, none, none, none, none⟩) = "/api/assets" := by
  rcases f with ⟨s, c, st, p, ps⟩
  refine ⟨?_, ?_, ?_, ?_, ?_, ?_, ?_, rfl, rfl⟩ <;>
    (rcases s with _ | s <;> rcases c with _ | c <;> rcases st with _ | st <;>
      rcases p with _ | p <;> rcases ps with _ | ps <;>
      simp only [getAssetsParams, appendIfTruthyStr, appendIfTruthyNat,
        optTruthyStr, optTruthyNat] <;>
      (try split_ifs) <;> simp_all [lookupParam])

end AssetMgmt
